import Mathlib

/-!
Shallow embedding of the row-to-metric mapping engine of OraProm
(`src/app.py`, function `query_set`, lines 56-110, plus `get_labels_list`
and the registration label computation of `start_prometheus_exporter`)
and of `OracleConnection.execute` (`src/oraProm/ora.py`, lines 49-84).

Rows are modelled as lists of strings (one cell per column); a Python
`dict` used as a label map is modelled as an association list whose
semantics is given by `List.lookup` (first occurrence wins, as in the
maps the program builds, which never carry duplicate keys).  Python's
`dict` union `a | b` / `a.update(b)` — right operand overriding, keys of
the left in their order first, new keys of the right appended — is
`LabelMap.merge`.  Python exceptions (the `IndexError` an out-of-range
`row[i]` raises, caught only by the outer `except` of the polling loop)
are modelled by an error flag: each mapping function returns the list of
observations actually emitted by `exporter.set_gauge` before any
exception, together with a Bool that is true when an exception escaped
to the outer handler and aborted the rest of the tick.
-/

namespace OraProm

/-- One database row, as fetched by the cursor: an ordered sequence of
cell values. -/
abbrev Row := List String

/-- A Python dict from label name to label value, as an association
list; lookup takes the first matching key. -/
abbrev LabelMap := List (String × String)

/-- Modelled from the spec: `INVALID_LABEL_STR` is imported from
`oraProm/prometheus.py`, a file that is not among the sources; the spec
describes it only as a fixed "invalid-value sentinel" string substituted
when a referenced column cannot be resolved, so its concrete text is an
arbitrary fixed string here. -/
def INVALID_LABEL_STR : String := "-"

/-- Python dict union `a | b` (equivalently `a.update(b)`): every key of
`a` keeps its place but takes `b`'s value when `b` also has the key;
keys of `b` absent from `a` are appended in `b`'s order. -/
def LabelMap.merge (a b : LabelMap) : LabelMap :=
  (a.map fun kv => (kv.1, (b.lookup kv.1).getD kv.2))
    ++ b.filter fun kv => (a.lookup kv.1).isNone

/-- Python sequence indexing `row[i]`: non-negative indices from the
front, negative indices from the back; `none` models the `IndexError`
raised when the index is out of range. -/
def pyGet (row : Row) (i : Int) : Option String :=
  if 0 ≤ i then row[i.toNat]?
  else
    let j : Int := (row.length : Int) + i
    if 0 ≤ j then row[j.toNat]? else none

/-- Numeric value of a digit string, as Python `int` parses the capture
group of `^\$(\d+)$`. -/
def digitsVal (ds : List Char) : Nat :=
  ds.foldl (fun acc c => acc * 10 + (c.toNat - '0'.toNat)) 0

/-- The captured integer of `^\$(\d+)$` when the template matches the
anchored placeholder pattern (a dollar sign followed by one or more
digits, and nothing else), `none` otherwise. -/
def placeholderNum (s : String) : Option Nat :=
  match s.data with
  | '$' :: ds => if !ds.isEmpty && ds.all Char.isDigit then some (digitsVal ds) else none
  | _ => none

/-- The truthiness of `re.match(r'^\$\d+$', v)` at `app.py` lines 89
and 101 (both regexes match exactly the same strings). -/
def isPlaceholder (s : String) : Bool :=
  (placeholderNum s).isSome

/-- One gauge entry of a query's `gauges` list (`app.py` lines 78-87):
metric name, literal `extra_labels` map, and the optional explicit
1-based column `col` (already through Python `int`). -/
structure GaugeSpec where
  name : String
  extra_labels : LabelMap
  col : Option Int
deriving DecidableEq, Repr

/-- One connection entry of the configuration: the three identity
fields read at `app.py` lines 66-68 and the optional `extra_labels`
dict of line 70. -/
structure ConnectionConfig where
  db_host : String
  db_port : String
  db_name : String
  extra_labels : Option LabelMap
deriving DecidableEq, Repr

/-- One call `exporter.set_gauge(name, value, labels)`. -/
structure Observation where
  metric : String
  value : String
  labels : LabelMap
deriving DecidableEq, Repr

/-- The hardcoded connection-label key set of `app.py` line 73 (a Python
set literal; order is irrelevant, only membership is used). -/
def maxConnLabels : List String := ["dbhost", "dbenv", "dbname", "dbinstance", "dbport"]

/-- The initial connection label dict of `app.py` lines 65-69. -/
def connIdentityLabels (conn : ConnectionConfig) : LabelMap :=
  [("dbhost", conn.db_host), ("dbport", conn.db_port), ("dbname", conn.db_name)]

/-- The connection's `extra_labels` dict, empty when absent. -/
def connExtra (conn : ConnectionConfig) : LabelMap :=
  (conn.extra_labels).getD []

/-- `app.py` lines 65-74: the connection-level label dict — the three
identity labels, updated with the connection's `extra_labels` when
present, then laid over a base that maps each of the five hardcoded
keys to the invalid sentinel. -/
def buildConnLabels (conn : ConnectionConfig) : LabelMap :=
  let c1 : LabelMap :=
    match conn.extra_labels with
    | some e => LabelMap.merge (connIdentityLabels conn) e
    | none => connIdentityLabels conn
  LabelMap.merge (maxConnLabels.map fun k => (k, INVALID_LABEL_STR)) c1

/-- `app.py` lines 84-87: the value column of a gauge — `int(col) - 1`
when `col` is given, else the running counter. -/
def assignedCol (g : GaugeSpec) (counter : Nat) : Int :=
  match g.col with
  | some c => c - 1
  | none => (counter : Int)

/-- `app.py` line 89: `any(re.match(r'^\$\d+$', v) for v in
g_labels.values())`. -/
def hasSpecialLabels (m : LabelMap) : Bool :=
  m.any fun kv => isPlaceholder kv.2

/-- The guard of `app.py` lines 95 and 104: `row and len(row) >= col`. -/
def emitCheck (row : Row) (col : Int) : Bool :=
  !row.isEmpty && col ≤ (row.length : Int)

/-- `app.py` lines 101-102, one label template of the dynamic branch:
the index is the captured integer minus one when the template matches
the placeholder pattern and `0` otherwise; the value is `row[index]`
when `row and len(row) >= index`, else the sentinel.  `Except.error`
models the `IndexError` of `row[index]` when the guard passed but the
index is still out of range. -/
def resolveDynLabel (row : Row) (v : String) : Except Unit String :=
  let idx : Int :=
    match placeholderNum v with
    | some n => (n : Int) - 1
    | none => 0
  if !row.isEmpty && idx ≤ (row.length : Int) then
    match pyGet row idx with
    | some x => .ok x
    | none => .error ()
  else
    .ok INVALID_LABEL_STR

/-- `app.py` lines 99-102: rewrite every value of the gauge's label
dict against the current row (`g_labels_aux`); the first `IndexError`
aborts. -/
def resolveDynLabels (row : Row) : LabelMap → Except Unit LabelMap
  | [] => .ok []
  | (k, v) :: rest =>
    match resolveDynLabel row v with
    | .error e => .error e
    | .ok x =>
      match resolveDynLabels row rest with
      | .error e => .error e
      | .ok r => .ok ((k, x) :: r)

/-- `app.py` lines 98-105, the dynamic-label branch: for every row,
resolve the label templates, merge under the connection labels, and
emit `row[col]` when the guard passes; an `IndexError` (in label
resolution or in the value lookup) aborts the loop, keeping the
observations already emitted. -/
def processDynRows (c_labels : LabelMap) (name : String) (g_labels : LabelMap)
    (col : Int) : List Row → List Observation × Bool
  | [] => ([], false)
  | row :: rest =>
    match resolveDynLabels row g_labels with
    | .error _ => ([], true)
    | .ok aux =>
      let labels := LabelMap.merge aux c_labels
      if emitCheck row col then
        match pyGet row col with
        | none => ([], true)
        | some v =>
          let r := processDynRows c_labels name g_labels col rest
          (⟨name, v, labels⟩ :: r.1, r.2)
      else
        processDynRows c_labels name g_labels col rest

/-- `app.py` lines 79-105, the body of the gauge loop for one gauge:
the static branch consults only `res[0]` and emits at most once; the
dynamic branch fans out over all rows. -/
def processGauge (c_labels : LabelMap) (res : List Row) (g : GaugeSpec)
    (counter : Nat) : List Observation × Bool :=
  if !hasSpecialLabels g.extra_labels then
    match res with
    | [] => ([], false)
    | row :: _ =>
      if emitCheck row (assignedCol g counter) then
        match pyGet row (assignedCol g counter) with
        | none => ([], true)
        | some v => ([⟨g.name, v, LabelMap.merge g.extra_labels c_labels⟩], false)
      else ([], false)
  else
    processDynRows c_labels g.name g.extra_labels (assignedCol g counter) res

/-- `app.py` lines 77-106: the gauge loop with its running counter
`g_counter`, incremented once per gauge regardless of branch; an
exception escaping one gauge aborts the loop (the observations emitted
before it stand). -/
def processGauges (c_labels : LabelMap) (res : List Row) :
    List GaugeSpec → Nat → List Observation × Bool
  | [], _ => ([], false)
  | g :: gs, counter =>
    let r := processGauge c_labels res g counter
    if r.2 then (r.1, true)
    else
      let rest := processGauges c_labels res gs (counter + 1)
      (r.1 ++ rest.1, rest.2)

/-- One tick of `query_set` (`app.py` lines 61-106) after the result
set has been fetched: build the connection labels and run the gauge
loop with the counter starting at 0. -/
def query_set_tick (conn : ConnectionConfig) (res : List Row)
    (gauges : List GaugeSpec) : List Observation × Bool :=
  processGauges (buildConnLabels conn) res gauges 0

/-- `ora.py` line 60: the statement text, leading whitespace stripped
and lowercased, starts with `select`.  (Python `strip()` also removes
trailing whitespace, which a prefix test never sees.) -/
def isSelectText (q : String) : Bool :=
  "select".data.isPrefixOf ((q.data.dropWhile Char.isWhitespace).map Char.toLower)

/-- What the database driver does when `cursor.execute`/`fetchall` run:
either rows come back, or an `oracledb.DatabaseError` is raised, or
some other exception is raised. -/
inductive DbOutcome where
  | rows (rs : List Row)
  | dbError
  | otherError
deriving DecidableEq, Repr

namespace OracleConnection

/-- `ora.py` lines 49-84, `OracleConnection.execute`: no active
connection or a non-SELECT statement short-circuits to `[]` without
touching the driver; a driver exception during execution yields
`[[]]` — one empty row. -/
def execute (connActive : Bool) (query : String) (outcome : DbOutcome) : List Row :=
  if !connActive then []
  else if !isSelectText query then []
  else
    match outcome with
    | .rows rs => rs
    | .dbError => [[]]
    | .otherError => [[]]

end OracleConnection

/-- Extra label keys of one connection config (`app.py` lines 134-138). -/
def connExtraKeys (c : ConnectionConfig) : List String :=
  match c.extra_labels with
  | some e => e.map Prod.fst
  | none => []

/-- `app.py` lines 131-142, `get_labels_list`: the union over all
connections of their `extra_labels` keys, plus `dbhost`, `dbport`,
`dbname` (a Python set; modelled as a list read up to membership). -/
def get_labels_list (conns : List ConnectionConfig) : List String :=
  (conns.map connExtraKeys).flatten ++ ["dbhost", "dbport", "dbname"]

/-- `app.py` lines 151-153: the label-key schema registered for one
gauge at startup — `max_conn_labels | set(gauge extra_labels keys)`
(again a set, read up to membership). -/
def registeredLabelKeys (conns : List ConnectionConfig) (g : GaugeSpec) : List String :=
  get_labels_list conns ++ g.extra_labels.map Prod.fst

/-! ### Lookup lemmas for association-list dicts -/

theorem lookup_append (l₁ l₂ : LabelMap) (k : String) :
    (l₁ ++ l₂).lookup k = ((l₁.lookup k).or (l₂.lookup k)) := by
  induction l₁ with
  | nil => simp [List.lookup]
  | cons kv t ih =>
    obtain ⟨k₁, v₁⟩ := kv
    by_cases h : k = k₁
    · subst h
      simp [List.lookup]
    · have hb : (k == k₁) = false := beq_eq_false_iff_ne.mpr h
      simp [List.lookup, hb, ih]

theorem lookup_mapVal (b : LabelMap) (a : LabelMap) (k : String) :
    ((a.map fun kv => (kv.1, (b.lookup kv.1).getD kv.2)).lookup k)
      = (a.lookup k).map fun v => (b.lookup k).getD v := by
  induction a with
  | nil => simp [List.lookup]
  | cons kv t ih =>
    obtain ⟨k₁, v₁⟩ := kv
    by_cases h : k = k₁
    · subst h
      simp [List.lookup]
    · have hb : (k == k₁) = false := beq_eq_false_iff_ne.mpr h
      simp [List.lookup, hb, ih]

theorem lookup_filterNotIn (a b : LabelMap) (k : String) :
    ((b.filter fun kv => (a.lookup kv.1).isNone).lookup k)
      = if (a.lookup k).isNone then b.lookup k else none := by
  induction b with
  | nil => simp [List.lookup]
  | cons kv t ih =>
    obtain ⟨k₁, v₁⟩ := kv
    by_cases h : k = k₁
    · subst h
      cases ha : (a.lookup k).isNone <;>
        simp [List.lookup, List.filter, ha, ih]
    · have hb : (k == k₁) = false := beq_eq_false_iff_ne.mpr h
      cases ha : (a.lookup k₁).isNone <;>
        cases ha₂ : (a.lookup k).isNone <;>
          simp [List.lookup, List.filter, hb, ha, ha₂, ih]

/-- Dict-union lookup semantics: in `a | b` the right operand wins. -/
theorem merge_lookup (a b : LabelMap) (k : String) :
    (LabelMap.merge a b).lookup k = (b.lookup k).or (a.lookup k) := by
  unfold LabelMap.merge
  rw [lookup_append, lookup_mapVal, lookup_filterNotIn]
  cases ha : a.lookup k <;> cases hb : b.lookup k <;> simp [Option.or]

theorem merge_lookup_isSome (a b : LabelMap) (k : String) :
    ((LabelMap.merge a b).lookup k).isSome
      = ((a.lookup k).isSome || (b.lookup k).isSome) := by
  rw [merge_lookup]
  cases a.lookup k <;> cases b.lookup k <;> simp [Option.or]

theorem lookup_isSome_iff (m : LabelMap) (k : String) :
    (m.lookup k).isSome = true ↔ k ∈ m.map Prod.fst := by
  induction m with
  | nil => simp [List.lookup]
  | cons kv t ih =>
    obtain ⟨k₁, v₁⟩ := kv
    by_cases h : k = k₁
    · subst h
      simp [List.lookup]
    · have hb : (k == k₁) = false := beq_eq_false_iff_ne.mpr h
      simp [List.lookup, hb, ih, h]

/-! ### Structure of the emitted observations -/

theorem resolveDynLabels_ok_keys (row : Row) :
    ∀ (m aux : LabelMap), resolveDynLabels row m = .ok aux →
      aux.map Prod.fst = m.map Prod.fst := by
  intro m
  induction m with
  | nil =>
    intro aux h
    simp [resolveDynLabels] at h
    simp [← h]
  | cons kv t ih =>
    obtain ⟨k₁, v₁⟩ := kv
    intro aux h
    rw [resolveDynLabels] at h
    cases hx : resolveDynLabel row v₁ with
    | error e => rw [hx] at h; simp at h
    | ok x =>
      rw [hx] at h
      cases hr : resolveDynLabels row t with
      | error e => rw [hr] at h; simp at h
      | ok r =>
        rw [hr] at h
        simp at h
        subst h
        simp [ih r hr]

theorem mem_processDynRows (cl : LabelMap) (name : String) (gl : LabelMap) (col : Int) :
    ∀ (rs : List Row) (obs : Observation),
      obs ∈ (processDynRows cl name gl col rs).1 →
        obs.metric = name ∧ ∃ aux : LabelMap,
          aux.map Prod.fst = gl.map Prod.fst ∧ obs.labels = LabelMap.merge aux cl := by
  intro rs
  induction rs with
  | nil => intro obs h; simp [processDynRows] at h
  | cons row rest ih =>
    intro obs h
    rw [processDynRows] at h
    cases hres : resolveDynLabels row gl with
    | error e => rw [hres] at h; simp at h
    | ok aux =>
      rw [hres] at h
      cases hc : emitCheck row col with
      | false => simp [hc] at h; exact ih obs h
      | true =>
        simp only [hc, if_true] at h
        cases hget : pyGet row col with
        | none => rw [hget] at h; simp at h
        | some v =>
          rw [hget] at h
          simp at h
          cases h with
          | inl h =>
            subst h
            exact ⟨rfl, aux, resolveDynLabels_ok_keys row gl aux hres, rfl⟩
          | inr h => exact ih obs h

theorem mem_processGauge (cl : LabelMap) (res : List Row) (g : GaugeSpec)
    (counter : Nat) (obs : Observation)
    (h : obs ∈ (processGauge cl res g counter).1) :
    obs.metric = g.name ∧ ∃ aux : LabelMap,
      aux.map Prod.fst = g.extra_labels.map Prod.fst ∧
        obs.labels = LabelMap.merge aux cl := by
  unfold processGauge at h
  cases hs : hasSpecialLabels g.extra_labels with
  | true =>
    simp only [hs, Bool.not_true, if_false] at h
    exact mem_processDynRows cl g.name g.extra_labels (assignedCol g counter) res obs h
  | false =>
    simp only [hs, Bool.not_false, if_true] at h
    cases res with
    | nil => simp at h
    | cons row rest =>
      cases hc : emitCheck row (assignedCol g counter) with
      | false => simp [hc] at h
      | true =>
        simp only [hc, if_true] at h
        cases hget : pyGet row (assignedCol g counter) with
        | none => rw [hget] at h; simp at h
        | some v =>
          rw [hget] at h
          simp at h
          subst h
          exact ⟨rfl, g.extra_labels, rfl, rfl⟩

theorem mem_processGauges (cl : LabelMap) (res : List Row) :
    ∀ (gs : List GaugeSpec) (n : Nat) (obs : Observation),
      obs ∈ (processGauges cl res gs n).1 →
        ∃ g m, g ∈ gs ∧ obs ∈ (processGauge cl res g m).1 := by
  intro gs
  induction gs with
  | nil => intro n obs h; simp [processGauges] at h
  | cons g gs ih =>
    intro n obs h
    rw [processGauges] at h
    cases he : (processGauge cl res g n).2 with
    | true =>
      simp [he] at h
      exact ⟨g, n, List.mem_cons_self g gs, h⟩
    | false =>
      simp [he] at h
      cases h with
      | inl h => exact ⟨g, n, List.mem_cons_self g gs, h⟩
      | inr h =>
        obtain ⟨g', m, hg', hobs⟩ := ih (n + 1) obs h
        exact ⟨g', m, List.mem_cons_of_mem g hg', hobs⟩

/-! ### Connection-label lookups -/

theorem buildConnLabels_lookup (conn : ConnectionConfig) (k : String) :
    (buildConnLabels conn).lookup k =
      ((((connExtra conn).lookup k).or ((connIdentityLabels conn).lookup k)).or
        ((maxConnLabels.map fun x => (x, INVALID_LABEL_STR)).lookup k)) := by
  unfold buildConnLabels
  cases he : conn.extra_labels with
  | none =>
    rw [merge_lookup]
    simp [connExtra, he, List.lookup]
  | some e =>
    rw [merge_lookup, merge_lookup]
    simp [connExtra, he]

theorem lookup_sentinelBase (k : String) (hk : k ∈ maxConnLabels) :
    ((maxConnLabels.map fun x => (x, INVALID_LABEL_STR)).lookup k)
      = some INVALID_LABEL_STR := by
  fin_cases hk <;> rfl

theorem buildConnLabels_isSome_iff (conn : ConnectionConfig) (k : String) :
    ((buildConnLabels conn).lookup k).isSome = true ↔
      (k ∈ maxConnLabels ∨ k ∈ connExtraKeys conn) := by
  have hor : ∀ x y : Option String, (x.or y).isSome = (x.isSome || y.isSome) := by
    intro x y
    cases x <;> cases y <;> rfl
  have hident : (((connIdentityLabels conn).lookup k).isSome = true) ↔
      k ∈ (["dbhost", "dbport", "dbname"] : List String) := by
    rw [lookup_isSome_iff]
    rfl
  have hsent : (((maxConnLabels.map fun x => (x, INVALID_LABEL_STR)).lookup k).isSome = true)
      ↔ k ∈ maxConnLabels := by
    rw [lookup_isSome_iff]
    simp [List.map_map, Function.comp_def]
  have hextra : (((connExtra conn).lookup k).isSome = true) ↔ k ∈ connExtraKeys conn := by
    rw [lookup_isSome_iff]
    cases he : conn.extra_labels <;> simp [connExtra, connExtraKeys, he]
  have hsub : k ∈ (["dbhost", "dbport", "dbname"] : List String) → k ∈ maxConnLabels := by
    intro h
    fin_cases h <;> simp [maxConnLabels]
  rw [buildConnLabels_lookup, hor, hor]
  simp only [Bool.or_eq_true]
  rw [hident, hsent, hextra]
  constructor
  · rintro ((h | h) | h)
    · exact Or.inr h
    · exact Or.inl (hsub h)
    · exact Or.inl h
  · rintro (h | h)
    · exact Or.inr h
    · exact Or.inl (Or.inl h)

/-! ### The running counter versus positional column assignment -/

/-- Sequential composition of per-gauge results: later results are
appended until the first one that errored, which ends the pass. -/
def seqObs : List (List Observation × Bool) → List Observation × Bool
  | [] => ([], false)
  | r :: rest =>
    if r.2 then (r.1, true)
    else ((r.1 ++ (seqObs rest).1), (seqObs rest).2)

/-- The spec's positional formulation of the gauge pass: every gauge of
the query is evaluated with the value-column counter equal to its
zero-based position in the query's gauge list. -/
def processGaugesPos (c_labels : LabelMap) (res : List Row)
    (gs : List GaugeSpec) : List Observation × Bool :=
  seqObs (((List.range gs.length).zip gs).map fun p => processGauge c_labels res p.2 p.1)

theorem processGauges_eq_seq (cl : LabelMap) (res : List Row) :
    ∀ (gs : List GaugeSpec) (n : Nat),
      processGauges cl res gs n =
        seqObs (((List.range gs.length).zip gs).map
          fun p => processGauge cl res p.2 (p.1 + n)) := by
  intro gs
  induction gs with
  | nil => intro n; rfl
  | cons g gs ih =>
    intro n
    have hshift : ∀ p : Nat × GaugeSpec, p.1 + 1 + n = p.1 + (n + 1) := by omega
    rw [processGauges]
    rw [List.length_cons, List.range_succ_eq_map, List.zip_cons_cons, List.map_cons,
      List.zip_map_left, List.map_map]
    simp only [Function.comp_def, Prod.map_fst, Prod.map_snd, id, Nat.succ_eq_add_one,
      Nat.zero_add, hshift]
    rw [seqObs, ← ih (n + 1)]

/-! ### Claims -/

/-- C1, counterexample: a gauge whose literal `extra_labels` carry the
colliding key `dbhost` with value `GAUGE` emits the connection-level
value `h1`, not the gauge-level one — `g_labels | c_labels` is
right-biased, so the claim's stated precedence is false. -/
theorem c1_counterexample :
    ((processGauge (buildConnLabels ⟨"h1", "p1", "n1", none⟩) [["5"]]
        ⟨"g", [("dbhost", "GAUGE")], some 1⟩ 0).1.map
      fun o => o.labels.lookup "dbhost") = [some "h1"] ∧
    ("h1" : String) ≠ "GAUGE" := by
  exact ⟨rfl, by decide⟩

/-- C1, amended: for every key present in the connection-level label
set, the value emitted in any observation's label set is the
connection-level value — the merge `g_labels | c_labels` is
right-biased, so connection labels overwrite gauge-level
`extra_labels` on collision, in both the static and the dynamic
branch; gauge-level values survive only for keys the connection set
does not contain. -/
theorem c1_theorem (cl : LabelMap) (res : List Row) (g : GaugeSpec) (n : Nat)
    (obs : Observation) (h : obs ∈ (processGauge cl res g n).1) (k : String)
    (hk : (cl.lookup k).isSome = true) :
    obs.labels.lookup k = cl.lookup k := by
  obtain ⟨-, aux, -, hlab⟩ := mem_processGauge cl res g n obs h
  rw [hlab, merge_lookup]
  cases hx : cl.lookup k with
  | some v => rfl
  | none => rw [hx] at hk; simp at hk

/-- C1, witness: the amended precedence at a concrete collision. -/
theorem c1_witness :
    (Observation.mk "g" "5"
        [("dbhost", "h1"), ("dbenv", "-"), ("dbname", "n1"), ("dbinstance", "-"),
          ("dbport", "p1")]).labels.lookup "dbhost"
      = (buildConnLabels ⟨"h1", "p1", "n1", none⟩).lookup "dbhost" :=
  c1_theorem (buildConnLabels ⟨"h1", "p1", "n1", none⟩) [["5"]]
    ⟨"g", [("dbhost", "GAUGE")], some 1⟩ 0
    (Observation.mk "g" "5"
      [("dbhost", "h1"), ("dbenv", "-"), ("dbname", "n1"), ("dbinstance", "-"),
        ("dbport", "p1")])
    (by decide) "dbhost" (by decide)

/-- C2, counterexample: in the dynamic branch the non-placeholder
template `hello` is not emitted verbatim — it is replaced by the row's
first column `A` (the `else 0` fallback of line 101 makes a literal
template index column 0). -/
theorem c2_counterexample :
    processGauge [] [["A", "10"]] ⟨"g", [("lit", "hello"), ("env", "$1")], some 2⟩ 0
      = ([⟨"g", "10", [("lit", "A"), ("env", "A")]⟩], false) ∧
    isPlaceholder "hello" = false ∧ ("A" : String) ≠ "hello" := by
  exact ⟨rfl, rfl, by decide⟩

/-- C2, amended: a template that does not match the anchored
placeholder pattern is kept verbatim only in the static branch (whose
emitted label set is the literal gauge map merged under the connection
labels); in the dynamic branch a non-placeholder template is resolved
with column index 0, yielding the row's first column for a non-empty
row and the invalid-value sentinel for an empty row. -/
theorem c2_theorem (row : Row) (v : String) (hv : isPlaceholder v = false) :
    resolveDynLabel row v =
      (match row with
       | [] => .ok INVALID_LABEL_STR
       | x :: _ => .ok x) ∧
    (∀ (cl : LabelMap) (res : List Row) (g : GaugeSpec) (n : Nat) (obs : Observation),
      hasSpecialLabels g.extra_labels = false →
        obs ∈ (processGauge cl res g n).1 →
          obs.labels = LabelMap.merge g.extra_labels cl) := by
  constructor
  · have hnum : placeholderNum v = none := by
      unfold isPlaceholder at hv
      cases hx : placeholderNum v
      · rfl
      · rw [hx] at hv; simp at hv
    cases row with
    | nil =>
      unfold resolveDynLabel
      rw [hnum]
      rfl
    | cons x t =>
      have h0 : ((0 : Int) ≤ ((x :: t).length : Int)) := by positivity
      simp [resolveDynLabel, hnum, pyGet, h0]
      intro hlt
      exact absurd hlt (by omega)
  · intro cl res g n obs hs h
    unfold processGauge at h
    simp only [hs, Bool.not_false, if_true] at h
    cases res with
    | nil => simp at h
    | cons row rest =>
      cases hc : emitCheck row (assignedCol g n) with
      | false => simp [hc] at h
      | true =>
        simp only [hc, if_true] at h
        cases hget : pyGet row (assignedCol g n) with
        | none => rw [hget] at h; simp at h
        | some w => rw [hget] at h; simp at h; rw [h]

/-- C2, witness: the literal template `hello` against the row
`["A", "10"]` resolves to `A`, and the static branch keeps the literal
map. -/
theorem c2_witness :
    resolveDynLabel ["A", "10"] "hello" = Except.ok "A" ∧
    (Observation.mk "g" "5" [("lit", "hello")]).labels
      = LabelMap.merge [("lit", "hello")] [] :=
  ⟨( c2_theorem ["A", "10"] "hello" (by decide)).1,
    ( c2_theorem ["A", "10"] "hello" (by decide)).2 [] [["5"]]
      ⟨"g", [("lit", "hello")], some 1⟩ 0
      (Observation.mk "g" "5" [("lit", "hello")]) (by decide) (by decide)⟩

/-- C3: the claim is the code's evident intent, but the bounds check of
line 102 is off by one: `len(row) >= n-1` passes when the row has
exactly `n-1` columns and `row[n-1]` then raises IndexError instead of
resolving to the sentinel.  `$2` against the one-column row `["A"]`
raises; only rows more than one column short reach the sentinel; rows
with at least `n` columns resolve to `row[n-1]` as claimed. -/
theorem c3_theorem :
    resolveDynLabel ["A"] "$2" = Except.error () ∧
    resolveDynLabel ["A"] "$3" = Except.ok INVALID_LABEL_STR ∧
    resolveDynLabel ["A", "B"] "$2" = Except.ok "B" ∧
    resolveDynLabel [] "$1" = Except.ok INVALID_LABEL_STR := by
  exact ⟨rfl, rfl, rfl, rfl⟩

/-- C4: the claim is the spec's own scenario (§8), but the value-column
guard of line 104 has the same off-by-one: the row `["A"]` with 0-based
column 1 passes `len(row) >= col` and `row[col]` raises IndexError,
aborting the whole tick — zero observations, and the later row
`["B", "20"]` (which alone would emit) is never processed. -/
theorem c4_theorem :
    processGauge [] [["A"], ["B", "20"]] ⟨"m", [("env", "$1")], some 2⟩ 0 = ([], true) ∧
    processGauge [] [["B", "20"]] ⟨"m", [("env", "$1")], some 2⟩ 0
      = ([⟨"m", "20", [("env", "B")]⟩], false) := by
  exact ⟨rfl, rfl⟩

/-- C5, counterexample: with one connection that declares no
`extra_labels`, the registered key set is `{dbhost, dbport, dbname}`,
but the emitted observation carries the key `dbenv` — the emitted key
set is not the registered one. -/
theorem c5_counterexample :
    ((query_set_tick ⟨"h", "p", "n", none⟩ [["5"]] [⟨"m", [], some 1⟩]).1.map
        fun o => (o.labels.lookup "dbenv").isSome) = [true] ∧
    "dbenv" ∉ registeredLabelKeys [⟨"h", "p", "n", none⟩] ⟨"m", [], some 1⟩ := by
  exact ⟨rfl, by decide⟩

/-- C5, amended: every emitted observation's label key set equals the
union of the gauge's `extra_labels` keys and the CURRENT connection's
label key set — the five hardcoded keys `dbhost`, `dbenv`, `dbname`,
`dbinstance`, `dbport` plus that connection's own `extra_labels` keys.
This can differ from the key set registered at startup (which is the
union over ALL connections' extra keys plus only `dbhost`, `dbport`,
`dbname`). -/
theorem c5_theorem (conn : ConnectionConfig) (res : List Row) (g : GaugeSpec)
    (n : Nat) (obs : Observation)
    (h : obs ∈ (processGauge (buildConnLabels conn) res g n).1) (k : String) :
    (obs.labels.lookup k).isSome = true ↔
      ((g.extra_labels.lookup k).isSome = true ∨
        k ∈ maxConnLabels ∨ k ∈ connExtraKeys conn) := by
  obtain ⟨-, aux, hkeys, hlab⟩ := mem_processGauge _ res g n obs h
  rw [hlab, merge_lookup_isSome, Bool.or_eq_true]
  have haux : ((aux.lookup k).isSome = true) ↔ ((g.extra_labels.lookup k).isSome = true) := by
    rw [lookup_isSome_iff, lookup_isSome_iff, hkeys]
  rw [haux, buildConnLabels_isSome_iff]

/-- C5, witness: the amended key-set characterization at a concrete
emitted observation. -/
theorem c5_witness :
    ((Observation.mk "m" "5"
        [("dbhost", "h"), ("dbenv", "-"), ("dbname", "n"), ("dbinstance", "-"),
          ("dbport", "p")]).labels.lookup "dbenv").isSome = true ↔
      ((([] : LabelMap).lookup "dbenv").isSome = true ∨
        "dbenv" ∈ maxConnLabels ∨ "dbenv" ∈ connExtraKeys ⟨"h", "p", "n", none⟩) :=
  c5_theorem ⟨"h", "p", "n", none⟩ [["5"]] ⟨"m", [], some 1⟩ 0
    (Observation.mk "m" "5"
      [("dbhost", "h"), ("dbenv", "-"), ("dbname", "n"), ("dbinstance", "-"),
        ("dbport", "p")])
    (by decide) "dbenv"

/-- C6: the running counter of the gauge loop — starting at 0 and
incremented exactly once per gauge regardless of branch or explicit
`col` — is equivalent to assigning every gauge its zero-based position
in the query's gauge list: the counter-threaded pass equals the
positional pass. -/
theorem c6_theorem (cl : LabelMap) (res : List Row) (gs : List GaugeSpec) :
    processGauges cl res gs 0 = processGaugesPos cl res gs := by
  rw [processGauges_eq_seq, processGaugesPos]
  simp only [Nat.add_zero]

/-- C7, counterexample: a non-empty result set whose first row is the
empty row yields ZERO observations in the static branch, refuting
"exactly one observation is emitted" for every non-empty result set. -/
theorem c7_counterexample :
    ([[]] : List Row) ≠ [] ∧
    (processGauge (buildConnLabels ⟨"h", "p", "n", none⟩) [[]]
      ⟨"m", [], some 1⟩ 0).1 = [] := by
  exact ⟨by decide, rfl⟩

/-- C7, amended: in the static-label branch with a non-empty result
set, only the first row is ever consulted (any later rows are
discarded); at most one observation is emitted, and exactly one —
with value `row[col]` and the literal labels merged under the
connection labels — when that first row is non-empty and strictly
longer than `col`; otherwise the binding emits nothing. -/
theorem c7_theorem (cl : LabelMap) (g : GaugeSpec) (row : Row) (rest : List Row)
    (n : Nat) (hs : hasSpecialLabels g.extra_labels = false) :
    processGauge cl (row :: rest) g n = processGauge cl [row] g n ∧
    (processGauge cl (row :: rest) g n).1.length ≤ 1 ∧
    (∀ i : Nat, assignedCol g n = (i : Int) → i < row.length →
      processGauge cl (row :: rest) g n
        = ([⟨g.name, row.getD i "", LabelMap.merge g.extra_labels cl⟩], false)) := by
  unfold processGauge
  simp only [hs, Bool.not_false, if_true]
  refine ⟨by trivial, ?_, ?_⟩
  · cases hc : emitCheck row (assignedCol g n) with
    | false => simp [hc]
    | true =>
      simp only [hc, if_true]
      cases hg : pyGet row (assignedCol g n) <;> simp
  · intro i hi hlt
    have hne : row.isEmpty = false := by
      cases row with
      | nil => simp at hlt
      | cons a t => rfl
    have hc : emitCheck row (assignedCol g n) = true := by
      unfold emitCheck
      rw [hi, hne]
      simp only [Bool.not_false, Bool.true_and, decide_eq_true_eq]
      exact_mod_cast Nat.le_of_lt hlt
    rw [hc]
    have hg : pyGet row (assignedCol g n) = some (row.getD i "") := by
      unfold pyGet
      rw [hi]
      have h0 : (0 : Int) ≤ (i : Int) := Int.natCast_nonneg i
      rw [if_pos h0]
      rw [Int.toNat_natCast]
      rw [List.getD_eq_getElem?_getD]
      rw [List.getElem?_eq_getElem hlt]
      rfl
    rw [hg]
    simp

/-- C7, witness: the amended static-branch behavior at a concrete
two-row result set: only the first row is used, one observation with
its column value. -/
theorem c7_witness :
    processGauge [] [["5"], ["6"]] ⟨"m", [], some 1⟩ 0
      = ([⟨"m", "5", []⟩], false) :=
  (c7_theorem [] ⟨"m", [], some 1⟩ ["5"] [["6"]] 0 (by decide)).2.2 0
    (by decide) (by decide)

theorem resolveDynLabels_nil_row (gl : LabelMap) :
    resolveDynLabels [] gl = .ok (gl.map fun kv => (kv.1, INVALID_LABEL_STR)) := by
  induction gl with
  | nil => rfl
  | cons kv t ih =>
    obtain ⟨k₁, v₁⟩ := kv
    rw [resolveDynLabels]
    have hlab : resolveDynLabel [] v₁ = .ok INVALID_LABEL_STR := by
      unfold resolveDynLabel
      simp
    rw [hlab, ih]
    rfl

/-- C8: an empty result set emits zero observations in both branches;
and an empty row that is present is skipped without raising in both
branches — the static branch emits nothing for the binding, the
dynamic branch skips exactly that row and continues, and every label
template (placeholder or not) resolves against the empty row to the
invalid-value sentinel. -/
theorem c8_theorem (cl : LabelMap) (g : GaugeSpec) (n : Nat) (name : String)
    (gl : LabelMap) (col : Int) (rest : List Row) :
    processGauge cl [] g n = ([], false) ∧
    (hasSpecialLabels g.extra_labels = false →
      processGauge cl ([] :: rest) g n = ([], false)) ∧
    processDynRows cl name gl col ([] :: rest) = processDynRows cl name gl col rest ∧
    resolveDynLabels [] gl = .ok (gl.map fun kv => (kv.1, INVALID_LABEL_STR)) := by
  refine ⟨?_, ?_, ?_, resolveDynLabels_nil_row gl⟩
  · cases hsp : hasSpecialLabels g.extra_labels <;>
      simp [processGauge, processDynRows, hsp]
  · intro hsp
    unfold processGauge
    simp [hsp, emitCheck]
  · rw [processDynRows, resolveDynLabels_nil_row gl]
    have hc : emitCheck [] col = false := by simp [emitCheck]
    rw [hc]
    simp

/-- C8, witness: the empty-result-set and empty-row cases at concrete
inputs. -/
theorem c8_witness :
    processGauge [] ([] :: [["7"]]) ⟨"m", [], some 1⟩ 0 = ([], false) :=
  (c8_theorem [] ⟨"m", [], some 1⟩ 0 "m" [] 0 [["7"]]).2.1 (by decide)

/-- C9: `execute` returns `[]` for any statement that does not start
with `select` after leading-whitespace stripping and lowercasing,
independently of what the database would do (it is never contacted);
a driver error during the execution of an allowed statement yields
`[[]]` — one empty row; and the result is always one of `[]`, `[[]]`,
or the fetched rows — no database error propagates. -/
theorem c9_theorem (b : Bool) (q : String) (o : DbOutcome) :
    (isSelectText q = false → OracleConnection.execute b q o = []) ∧
    (b = true → isSelectText q = true →
      OracleConnection.execute b q .dbError = [[]] ∧
      OracleConnection.execute b q .otherError = [[]]) ∧
    (OracleConnection.execute b q o = [] ∨ OracleConnection.execute b q o = [[]] ∨
      ∃ rs, o = .rows rs ∧ OracleConnection.execute b q o = rs) := by
  unfold OracleConnection.execute
  refine ⟨?_, ?_, ?_⟩
  · intro hq
    cases b <;> simp [hq]
  · intro hb hq
    subst hb
    simp [hq]
  · cases b with
    | false => simp
    | true =>
      cases hq : isSelectText q with
      | false => simp [hq]
      | true =>
        cases o with
        | rows rs => exact Or.inr (Or.inr ⟨rs, rfl, by simp [hq]⟩)
        | dbError => simp [hq]
        | otherError => simp [hq]

/-- C9, witness: a non-SELECT statement is rejected to `[]` even when
the driver would have returned rows, and a database error on a SELECT
yields the one-empty-row shape. -/
theorem c9_witness :
    OracleConnection.execute true "update t set x = 1" (.rows [["1"]]) = [] ∧
    OracleConnection.execute true "  SELECT 1 FROM dual" .dbError = [[]] :=
  ⟨(c9_theorem true "update t set x = 1" (.rows [["1"]])).1 (by decide),
    ((c9_theorem true "  SELECT 1 FROM dual" .dbError).2.1 rfl (by decide)).1⟩

theorem buildConnLabels_env_inst (conn : ConnectionConfig) (k : String)
    (hk : k = "dbenv" ∨ k = "dbinstance") :
    (buildConnLabels conn).lookup k
      = some (((connExtra conn).lookup k).getD INVALID_LABEL_STR) := by
  rw [buildConnLabels_lookup]
  have hident : (connIdentityLabels conn).lookup k = none := by
    cases hk with
    | inl h => subst h; rfl
    | inr h => subst h; rfl
  have hsent : (maxConnLabels.map fun x => (x, INVALID_LABEL_STR)).lookup k
      = some INVALID_LABEL_STR := by
    cases hk with
    | inl h => subst h; rfl
    | inr h => subst h; rfl
  rw [hident, hsent]
  cases hx : (connExtra conn).lookup k <;> simp [Option.or]

/-- C10: every observation emitted by a tick carries all five hardcoded
connection-label keys, and the values of `dbenv` and `dbinstance` are
the invalid-value sentinel unless the connection's `extra_labels`
supplies them — the connection label base is sentinel-initialized for
exactly the five-key set and then overlaid with the actual connection
values, and its entries override the gauge's on merge. -/
theorem c10_theorem (conn : ConnectionConfig) (res : List Row) (gs : List GaugeSpec)
    (obs : Observation) (h : obs ∈ (query_set_tick conn res gs).1) :
    (∀ k ∈ maxConnLabels, (obs.labels.lookup k).isSome = true) ∧
    obs.labels.lookup "dbenv"
      = some (((connExtra conn).lookup "dbenv").getD INVALID_LABEL_STR) ∧
    obs.labels.lookup "dbinstance"
      = some (((connExtra conn).lookup "dbinstance").getD INVALID_LABEL_STR) := by
  obtain ⟨g, m, -, hg⟩ := mem_processGauges _ res gs 0 obs h
  obtain ⟨-, aux, -, hlab⟩ := mem_processGauge _ res g m obs hg
  have hcl : ∀ k, ((buildConnLabels conn).lookup k).isSome = true →
      obs.labels.lookup k = (buildConnLabels conn).lookup k := by
    intro k hk
    rw [hlab, merge_lookup]
    cases hx : (buildConnLabels conn).lookup k with
    | some v => rfl
    | none => rw [hx] at hk; simp at hk
  refine ⟨?_, ?_, ?_⟩
  · intro k hk
    have h5 : ((buildConnLabels conn).lookup k).isSome = true :=
      (buildConnLabels_isSome_iff conn k).mpr (Or.inl hk)
    rw [hcl k h5]
    exact h5
  · have hv := buildConnLabels_env_inst conn "dbenv" (Or.inl rfl)
    rw [hcl "dbenv" (by rw [hv]; rfl), hv]
  · have hv := buildConnLabels_env_inst conn "dbinstance" (Or.inr rfl)
    rw [hcl "dbinstance" (by rw [hv]; rfl), hv]

/-- C10, witness: the five keys and the sentinel-valued `dbenv` and
`dbinstance` on a concrete emitted observation. -/
theorem c10_witness :
    (Observation.mk "m" "5"
        [("dbhost", "h"), ("dbenv", "-"), ("dbname", "n"), ("dbinstance", "-"),
          ("dbport", "p")]).labels.lookup "dbenv"
      = some (((connExtra ⟨"h", "p", "n", none⟩).lookup "dbenv").getD INVALID_LABEL_STR) :=
  ( c10_theorem ⟨"h", "p", "n", none⟩ [["5"]] [⟨"m", [], some 1⟩]
    (Observation.mk "m" "5"
      [("dbhost", "h"), ("dbenv", "-"), ("dbname", "n"), ("dbinstance", "-"),
        ("dbport", "p")])
    (by decide)).2.1

end OraProm
